import Mathlib

/-!
Shallow embedding of the `mario` transformer factory.

The repository synthesizes, from a plain function, a class satisfying an ML
pipeline framework's transformer protocol: the generated constructor accepts
exactly the function's keyword-defaulted parameters (same names, same
defaults), `fit` is a no-op returning the instance, and `transform` calls the
wrapped function on the input with the currently stored parameter values.

The embedding below follows the notebook source (`src/notebooks/factory.ipynb`)
cell by cell: signature introspection (`inspect.signature`, the
`args` / `kwargs_defaults` split and the `kwargs, defaults = zip(*kwargs_defaults)`
unpacking, which raises `ValueError` on an empty list), the generated methods
`__init__` / `fit` / `transform`, the class dictionary carrying the wrapped
function's docstring, and the dynamically created class named
`FunctionTransformer_<func name>`.  The external framework's parameter
get/set convention (sklearn `BaseEstimator.get_params` / `set_params`,
which the spec fixes as a black-box contract) is embedded as reading and
writing the instance attributes named by the generated constructor signature.
-/

namespace MarioFactory

/-- A parameter of a wrapped function: its name and, when present, its default
value; `none` marks a required positional parameter (`inspect._empty`). -/
structure Param (V : Type) where
  name : String
  default? : Option V
deriving DecidableEq

/-- A wrapped host-language function: the metadata `inspect.signature` sees
(name, docstring, ordered parameter list) together with its behaviour.
The behaviour `impl` receives the full binding environment — one
(name, value) pair per parameter, in signature order — exactly as the
function body sees its local variables after argument binding. -/
structure PyFunc (V : Type) where
  name : String
  doc : String
  params : List (Param V)
  impl : List (String × V) → V

variable {V : Type}

/-- Notebook cell `args = [name for ... if param.default is inspect._empty]`:
names of the required positional parameters. -/
def sigArgs (f : PyFunc V) : List String :=
  (f.params.filter (fun p => p.default?.isNone)).map Param.name

/-- Notebook cell `kwargs_defaults = [(name, param.default) for ... if
param.default is not inspect._empty]`, over an arbitrary parameter list. -/
def kdList (l : List (Param V)) : List (String × V) :=
  l.filterMap (fun p => p.default?.map (fun d => (p.name, d)))

/-- The `kwargs_defaults` list of a function: (name, default) for every
keyword-defaulted parameter, in signature order. -/
def sigKwargsDefaults (f : PyFunc V) : List (String × V) :=
  kdList f.params

/-- Notebook line `kwargs, defaults = zip(*kwargs_defaults)`.  When
`kwargs_defaults` is empty, `zip()` yields nothing and the two-target
unpacking raises a `ValueError`. -/
def unzipKwargsDefaults (kd : List (String × V)) :
    Except String (List String × List V) :=
  match kd with
  | [] => Except.error "ValueError: not enough values to unpack (expected 2, got 0)"
  | _ :: _ => Except.ok kd.unzip

/-- The dynamically created class
`type('FunctionTransformer_' + func.__name__, (BaseEstimator, TransformerMixin), proto_dict)`:
its name, its docstring (`proto_dict['__doc__'] = func.__doc__`), the keyword
parameter names and defaults baked into the generated `__init__` signature,
and the wrapped function captured in the `__init__` evaluation dictionary. -/
structure GeneratedClass (V : Type) where
  className : String
  doc : String
  kwargs : List String
  defaults : List V
  func : PyFunc V

/-- The factory body: introspect the signature, unpack
`kwargs, defaults = zip(*kwargs_defaults)` (a `ValueError` if there are no
keyword-defaulted parameters), then build the new class. -/
def makeTransformerClass (func : PyFunc V) : Except String (GeneratedClass V) :=
  match unzipKwargsDefaults (sigKwargsDefaults func) with
  | Except.error e => Except.error e
  | Except.ok kd =>
      Except.ok { className := "FunctionTransformer_" ++ func.name,
                  doc := func.doc,
                  kwargs := kd.1,
                  defaults := kd.2,
                  func := func }

/-- An instance of a generated class: the generated `__init__` body
`self.func = func; self.kw = kw; ...` stores the wrapped function and one
attribute per keyword parameter.  `fields` is the attribute map, in the
order of the generated constructor signature. -/
structure Transformer (V : Type) where
  func : PyFunc V
  fields : List (String × V)

/-- Instantiation `new_class(**overrides)`: the generated
`__init__(self, kw1=d1, ..., kwN=dN)` binds each keyword override to the
parameter of the same name (a `TypeError` for an unknown keyword), every
unbound parameter takes its default, and the body stores the wrapped
function and each parameter value on the instance. -/
def GeneratedClass.new (c : GeneratedClass V) (overrides : List (String × V)) :
    Except String (Transformer V) :=
  if overrides.all (fun kv => c.kwargs.contains kv.1) then
    Except.ok { func := c.func,
                fields := (c.kwargs.zip c.defaults).map
                  (fun nd => (nd.1, ((overrides.lookup nd.1).getD nd.2))) }
  else Except.error "TypeError: unexpected keyword argument"

/-- The value a parameter receives in a call binding: the keyword argument of
that name when given, otherwise the parameter's own default.  (The fallback
`x` is unreachable whenever the caller has checked that every parameter
without a default received a keyword argument.) -/
def boundVal (kws : List (String × V)) (x : V) (p : Param V) : V :=
  (kws.lookup p.name).getD (p.default?.getD x)

/-- The binding environment for the parameters after the first, in a call
`f(x, **kws)`. -/
def bindParams (rest : List (Param V)) (kws : List (String × V)) (x : V) :
    List (String × V) :=
  rest.map (fun p => (p.name, boundVal kws x p))

/-- Argument binding for a call `f(x, k1=v1, ..., kn=vn)` against a
parameter list: the positional argument binds the first parameter; a keyword
also naming the first parameter, a keyword naming no parameter, or a
parameter left with neither keyword nor default is a `TypeError`. -/
def callAux (impl : List (String × V) → V) (params : List (Param V))
    (x : V) (kws : List (String × V)) : Except String V :=
  match params with
  | [] => Except.error "TypeError: too many positional arguments"
  | p0 :: rest =>
    if kws.any (fun kv => kv.1 == p0.name) then
      Except.error "TypeError: multiple values for argument"
    else if kws.any (fun kv => !(((p0 :: rest).map Param.name).contains kv.1)) then
      Except.error "TypeError: unexpected keyword argument"
    else if rest.any (fun p => p.default?.isNone && (kws.lookup p.name).isNone) then
      Except.error "TypeError: missing a required argument"
    else
      Except.ok (impl ((p0.name, x) :: bindParams rest kws x))

/-- Host-language call semantics for `f(x, k1=v1, ..., kn=vn)` — one
positional argument plus keyword arguments. -/
def PyFunc.call (f : PyFunc V) (x : V) (kws : List (String × V)) :
    Except String V :=
  callAux f.impl f.params x kws

/-- The generated `transform(self, x): return self.func(x, kw1=self.kw1, ...)`:
call the wrapped function on the input with every stored parameter passed as
a keyword argument. -/
def Transformer.transform (t : Transformer V) (x : V) : Except String V :=
  t.func.call x t.fields

/-- The generated `fit(self, x): return self` as a state transformer:
(return value, post-call state).  The body only returns `self`. -/
def Transformer.fit (t : Transformer V) (_x : V) :
    Transformer V × Transformer V :=
  (t, t)

/-- The `transform` method as a state transformer: (return value, post-call
state).  The body contains no assignment to `self`. -/
def Transformer.transformStep (t : Transformer V) (x : V) :
    Except String V × Transformer V :=
  (t.transform x, t)

/-- The parameter names the external framework discovers on a generated
instance: it inspects the generated constructor signature, whose parameters
are exactly the stored attributes (the wrapped function's keyword names). -/
def Transformer.param_names (t : Transformer V) : List String :=
  t.fields.map Prod.fst

/-- Framework parameter read (`get_params()[k]` / `getattr(self, k)`). -/
def Transformer.get_param (t : Transformer V) (k : String) : Option V :=
  t.fields.lookup k

/-- Framework `get_params()`: each constructor-signature parameter with its
current attribute value. -/
def Transformer.get_params (t : Transformer V) : List (String × V) :=
  t.fields

/-- Overwriting one attribute: the entry named `k` takes the value `v`,
every other entry is unchanged. -/
def updEntry (k : String) (v : V) (kv : String × V) : String × V :=
  if kv.1 == k then (kv.1, v) else kv

/-- Framework `set_params(k=v)`: sets the attribute when `k` names a
declared parameter, raises `ValueError` otherwise (the sklearn contract the
spec fixes: unknown parameter names are explicit errors). -/
def Transformer.set_param (t : Transformer V) (k : String) (v : V) :
    Except String (Transformer V) :=
  if t.param_names.contains k then
    Except.ok { func := t.func, fields := t.fields.map (updEntry k v) }
  else Except.error "ValueError: invalid parameter"

/-- Pairwise distinctness of a name list, as the host language guarantees
for the parameters of any function definition. -/
def distinctNames : List String → Bool
  | [] => true
  | a :: l => (!(l.contains a)) && distinctNames l

/-- The signature shape the factory is designed for (spec data model): a
first required positional parameter (the data argument) followed only by
keyword-defaulted parameters, all names distinct. -/
def supportedShape (f : PyFunc V) : Bool :=
  distinctNames (f.params.map Param.name) &&
  (match f.params with
   | [] => false
   | p0 :: rest => p0.default?.isNone && rest.all (fun p => p.default?.isSome))

/-- Concrete host values for the worked example: numpy-style numbers and
two-dimensional arrays over exactly representable numeric values. -/
inductive Val where
  | num : Int → Val
  | arr : List (List Int) → Val
deriving DecidableEq

/-- Numpy-style `*`: scalars multiply, an array times a scalar scales every
entry, arrays multiply elementwise. -/
def Val.mul : Val → Val → Val
  | Val.num a, Val.num b => Val.num (a * b)
  | Val.arr m, Val.num b => Val.arr (m.map (fun row => row.map (fun a => a * b)))
  | Val.num a, Val.arr m => Val.arr (m.map (fun row => row.map (fun b => a * b)))
  | Val.arr m, Val.arr n => Val.arr (List.zipWith (List.zipWith (fun a b => a * b)) m n)

/-- The notebook's example function `def scale(x, factor=1.): return x * factor`
with docstring "Scale array by given factor.". -/
def scale : PyFunc Val :=
  { name := "scale",
    doc := "Scale array by given factor.",
    params := [Param.mk "x" none, Param.mk "factor" (some (Val.num 1))],
    impl := fun env =>
      Val.mul ((env.lookup "x").getD (Val.num 0))
              ((env.lookup "factor").getD (Val.num 1)) }

/-- The notebook's example input `X = np.array([[1., 2.], [3., 4.]])`. -/
def Xmat : Val :=
  Val.arr [[1, 2], [3, 4]]

/-- A function with one required positional parameter and no
keyword-defaulted parameters, `def double(x): return x * 2`. -/
def noKwargsFunc : PyFunc Val :=
  { name := "double",
    doc := "",
    params := [Param.mk "x" none],
    impl := fun env => Val.mul ((env.lookup "x").getD (Val.num 0)) (Val.num 2) }

/-- A function with two required positional parameters,
`def combine(x, y, factor=1.): return x * y` — the unsupported signature
shape from the spec's error taxonomy. -/
def twoPosFunc : PyFunc Val :=
  { name := "combine",
    doc := "",
    params := [Param.mk "x" none, Param.mk "y" none,
               Param.mk "factor" (some (Val.num 1))],
    impl := fun env =>
      Val.mul ((env.lookup "x").getD (Val.num 0))
              ((env.lookup "y").getD (Val.num 0)) }

/-- Modelled from the spec: the packaged factory
`mario.factory.function_transformer` is imported by the notebook but its
source file is not in the repository; per the spec, a missing function
argument defaults to the identity function of the single data argument. -/
def pyIdentity (V : Type) [Inhabited V] : PyFunc V :=
  { name := "identity",
    doc := "",
    params := [Param.mk "x" none],
    impl := fun env => (env.lookup "x").getD default }

/-- Modelled from the spec: the transformer returned by calling the factory
`function_transformer()` with no function argument — it wraps the identity
function and has an empty parameter set. -/
def function_transformer_default (V : Type) [Inhabited V] : Transformer V :=
  { func := pyIdentity V, fields := [] }

/-! ### Helper lemmas -/

lemma distinctNames_cons {a : String} {l : List String}
    (h : distinctNames (a :: l) = true) :
    a ∉ l ∧ distinctNames l = true := by
  simpa [distinctNames, Bool.and_eq_true] using h

lemma kdList_cons_none {p : Param V} (h : p.default? = none)
    (l : List (Param V)) : kdList (p :: l) = kdList l := by
  simp [kdList, h]

lemma kdList_cons_some {p : Param V} {d : V} (h : p.default? = some d)
    (l : List (Param V)) : kdList (p :: l) = (p.name, d) :: kdList l := by
  simp [kdList, h]

lemma kdList_key_mem {l : List (Param V)} {kv : String × V}
    (h : kv ∈ kdList l) : kv.1 ∈ l.map Param.name := by
  rcases List.mem_filterMap.mp h with ⟨p, hp, hf⟩
  cases hd : p.default? with
  | none => rw [hd] at hf; simp at hf
  | some d =>
      rw [hd] at hf
      simp at hf
      rw [← hf]
      exact List.mem_map_of_mem Param.name hp

lemma kdList_lookup {l : List (Param V)}
    (hdist : distinctNames (l.map Param.name) = true)
    {p : Param V} (hp : p ∈ l) {d : V} (hd : p.default? = some d) :
    (kdList l).lookup p.name = some d := by
  induction l with
  | nil => cases hp
  | cons q l ih =>
      rw [List.map_cons] at hdist
      obtain ⟨hq, hdist'⟩ := distinctNames_cons hdist
      rcases List.mem_cons.mp hp with rfl | hp'
      · rw [kdList_cons_some hd]
        simp [List.lookup]
      · have hne : p.name ≠ q.name := by
          intro he
          exact hq (he ▸ List.mem_map_of_mem Param.name hp')
        have hb : (p.name == q.name) = false := beq_eq_false_iff_ne.mpr hne
        cases hqd : q.default? with
        | none => rw [kdList_cons_none hqd]; exact ih hdist' hp'
        | some dq =>
            rw [kdList_cons_some hqd]
            simp only [List.lookup, hb]
            exact ih hdist' hp'

lemma bindParams_kdList {rest : List (Param V)} (x : V)
    (hdist : distinctNames (rest.map Param.name) = true)
    (hd : ∀ p ∈ rest, p.default?.isSome = true) :
    bindParams rest (kdList rest) x = bindParams rest [] x := by
  unfold bindParams
  apply List.map_congr_left
  intro p hp
  obtain ⟨d, hd'⟩ := Option.isSome_iff_exists.mp (hd p hp)
  simp [boundVal, kdList_lookup hdist hp hd', hd', List.lookup]

lemma updEntry_of_eq {k : String} {v : V} {kv : String × V}
    (h : kv.1 = k) : updEntry k v kv = (kv.1, v) := by
  simp [updEntry, h]

lemma updEntry_of_ne {k : String} {v : V} {kv : String × V}
    (h : kv.1 ≠ k) : updEntry k v kv = kv := by
  simp [updEntry, h]

lemma lookup_update_ne {l : List (String × V)} {k q : String} {v : V}
    (h : q ≠ k) :
    (l.map (updEntry k v)).lookup q = l.lookup q := by
  induction l with
  | nil => simp
  | cons kv l ih =>
      rw [List.map_cons]
      by_cases hk : kv.1 = k
      · rw [updEntry_of_eq hk]
        have hb2 : (q == kv.1) = false :=
          beq_eq_false_iff_ne.mpr (fun he => h (he ▸ hk))
        simp [List.lookup, hb2, ih]
      · rw [updEntry_of_ne hk]
        by_cases hq : q = kv.1
        · subst hq
          simp [List.lookup]
        · have hb2 : (q == kv.1) = false := beq_eq_false_iff_ne.mpr hq
          simp [List.lookup, hb2, ih]

lemma lookup_update_self {l : List (String × V)} {k : String} {v : V}
    (h : k ∈ l.map Prod.fst) :
    (l.map (updEntry k v)).lookup k = some v := by
  induction l with
  | nil => simp at h
  | cons kv l ih =>
      rw [List.map_cons]
      by_cases hk : kv.1 = k
      · rw [updEntry_of_eq hk]
        have hb : (k == kv.1) = true := by simp [hk]
        simp [List.lookup, hb]
      · rw [updEntry_of_ne hk]
        have hb2 : (k == kv.1) = false :=
          beq_eq_false_iff_ne.mpr (fun he => hk he.symm)
        have h' : k ∈ l.map Prod.fst := by
          rw [List.map_cons] at h
          rcases List.mem_cons.mp h with he | h2
          · exact absurd he.symm hk
          · exact h2
        simp [List.lookup, hb2, ih h']

lemma guard1_of_keys {kws : List (String × V)} {n : String}
    (h : ∀ kv ∈ kws, kv.1 ≠ n) :
    kws.any (fun kv => kv.1 == n) = false := by
  simp only [List.any_eq_false]
  intro kv hkv
  simpa using h kv hkv

lemma guard2_of_keys {kws : List (String × V)} {names : List String}
    (h : ∀ kv ∈ kws, kv.1 ∈ names) :
    kws.any (fun kv => !(names.contains kv.1)) = false := by
  simp only [List.any_eq_false]
  intro kv hkv
  simpa using h kv hkv

lemma guard3_of_defaults {rest : List (Param V)}
    (hd : ∀ p ∈ rest, p.default?.isSome = true) (kws : List (String × V)) :
    rest.any (fun p => p.default?.isNone && (kws.lookup p.name).isNone) =
      false := by
  simp only [List.any_eq_false]
  intro p hp
  obtain ⟨d, hd'⟩ := Option.isSome_iff_exists.mp (hd p hp)
  simp [hd']

lemma call_eval {f : PyFunc V} {p0 : Param V} {rest : List (Param V)}
    (hp : f.params = p0 :: rest) (x : V) (kws : List (String × V))
    (h1 : kws.any (fun kv => kv.1 == p0.name) = false)
    (h2 : kws.any
      (fun kv => !(((p0 :: rest).map Param.name).contains kv.1)) = false)
    (h3 : rest.any
      (fun p => p.default?.isNone && (kws.lookup p.name).isNone) = false) :
    f.call x kws =
      Except.ok (f.impl ((p0.name, x) :: bindParams rest kws x)) := by
  unfold PyFunc.call
  rw [hp]
  simp only [callAux, h1, h2, h3]
  simp

lemma make_ok_elim {f : PyFunc V} {g : GeneratedClass V}
    (hg : makeTransformerClass f = Except.ok g) :
    sigKwargsDefaults f ≠ [] ∧
      g = ⟨"FunctionTransformer_" ++ f.name, f.doc,
           (sigKwargsDefaults f).unzip.1, (sigKwargsDefaults f).unzip.2, f⟩ := by
  unfold makeTransformerClass unzipKwargsDefaults at hg
  cases hkd : sigKwargsDefaults f with
  | nil => rw [hkd] at hg; simp at hg
  | cons kv kd =>
      rw [hkd] at hg
      simp at hg
      refine ⟨by simp, ?_⟩
      rw [← hg]
      simp

lemma new_empty_elim {c : GeneratedClass V} {t : Transformer V}
    (ht : c.new [] = Except.ok t) :
    t = ⟨c.func, c.kwargs.zip c.defaults⟩ := by
  unfold GeneratedClass.new at ht
  simp [List.lookup] at ht
  rw [← ht]

lemma fresh_state {f : PyFunc V} {g : GeneratedClass V} {t : Transformer V}
    (hg : makeTransformerClass f = Except.ok g)
    (ht : g.new [] = Except.ok t) :
    t.func = f ∧ t.fields = sigKwargsDefaults f := by
  obtain ⟨_, hgr⟩ := make_ok_elim hg
  have h2 := new_empty_elim ht
  subst hgr
  subst h2
  exact ⟨rfl, List.zip_unzip _⟩

lemma make_ok_of_ne {f : PyFunc V} (h : sigKwargsDefaults f ≠ []) :
    makeTransformerClass f =
      Except.ok ⟨"FunctionTransformer_" ++ f.name, f.doc,
        (sigKwargsDefaults f).unzip.1, (sigKwargsDefaults f).unzip.2, f⟩ := by
  unfold makeTransformerClass unzipKwargsDefaults
  cases hkd : sigKwargsDefaults f with
  | nil => exact absurd hkd h
  | cons _ _ => simp

lemma new_empty_ok (c : GeneratedClass V) :
    c.new [] = Except.ok ⟨c.func, c.kwargs.zip c.defaults⟩ := by
  unfold GeneratedClass.new
  simp [List.lookup]

lemma sigKD_of_shape {f : PyFunc V} {p0 : Param V} {rest : List (Param V)}
    (hp : f.params = p0 :: rest) (h0 : p0.default? = none) :
    sigKwargsDefaults f = kdList rest := by
  unfold sigKwargsDefaults
  rw [hp, kdList_cons_none h0]

lemma kdList_keys {l : List (Param V)}
    (h : ∀ p ∈ l, p.default?.isSome = true) :
    (kdList l).map Prod.fst = l.map Param.name := by
  induction l with
  | nil => rfl
  | cons p l ih =>
      obtain ⟨d, hd⟩ := Option.isSome_iff_exists.mp (h p (List.mem_cons_self p l))
      rw [kdList_cons_some hd, List.map_cons, List.map_cons]
      simp [ih (fun q hq => h q (List.mem_cons_of_mem _ hq))]

lemma lookup_self_of_distinct {l : List (String × V)}
    (hdist : distinctNames (l.map Prod.fst) = true)
    {kv : String × V} (h : kv ∈ l) :
    l.lookup kv.1 = some kv.2 := by
  induction l with
  | nil => cases h
  | cons ab l ih =>
      rw [List.map_cons] at hdist
      obtain ⟨hnot, hdist2⟩ := distinctNames_cons hdist
      rcases List.mem_cons.mp h with rfl | h2
      · simp [List.lookup]
      · have hne : kv.1 ≠ ab.1 :=
          fun he => hnot (he ▸ List.mem_map_of_mem Prod.fst h2)
        have hb : (kv.1 == ab.1) = false := beq_eq_false_iff_ne.mpr hne
        simp [List.lookup, hb, ih hdist2 h2]

lemma updEntry_fst (k : String) (v : V) (kv : String × V) :
    (updEntry k v kv).1 = kv.1 := by
  unfold updEntry
  by_cases h : kv.1 = k
  · simp [h]
  · simp [h]

lemma updEntry_keys (k : String) (v : V) (l : List (String × V)) :
    (l.map (updEntry k v)).map Prod.fst = l.map Prod.fst := by
  rw [List.map_map]
  apply List.map_congr_left
  intro kv _
  exact updEntry_fst k v kv

lemma keys_sub {l : List (String × V)} {names : List String}
    (h : l.map Prod.fst = names) :
    ∀ kv ∈ l, kv.1 ∈ names :=
  fun _ hkv => h ▸ List.mem_map_of_mem Prod.fst hkv

lemma transform_eval {f : PyFunc V} {p0 : Param V} {rest : List (Param V)}
    (hp : f.params = p0 :: rest)
    (hrest : ∀ p ∈ rest, p.default?.isSome = true)
    (hnot : p0.name ∉ rest.map Param.name)
    {kws : List (String × V)}
    (hkeys : ∀ kv ∈ kws, kv.1 ∈ rest.map Param.name) (x : V) :
    f.call x kws =
      Except.ok (f.impl ((p0.name, x) :: bindParams rest kws x)) := by
  apply call_eval hp
  · exact guard1_of_keys (fun kv hkv he => hnot (he ▸ hkeys kv hkv))
  · apply guard2_of_keys
    intro kv hkv
    rw [List.map_cons]
    exact List.mem_cons_of_mem _ (hkeys kv hkv)
  · exact guard3_of_defaults hrest kws

lemma bindParams_update {rest : List (Param V)} {fields : List (String × V)}
    {k : String} {v : V} (x : V) (hmem : k ∈ fields.map Prod.fst) :
    bindParams rest (fields.map (updEntry k v)) x =
      bindParams rest ((k, v) :: fields) x := by
  unfold bindParams
  apply List.map_congr_left
  intro p hp
  by_cases hpk : p.name = k
  · simp [boundVal, hpk, lookup_update_self hmem, List.lookup]
  · have hb : (p.name == k) = false := beq_eq_false_iff_ne.mpr hpk
    simp [boundVal, lookup_update_ne hpk, List.lookup, hb]

lemma set_param_spec (t : Transformer V) (k : String) (v : V)
    (hk : t.param_names.contains k = true) :
    ∃ t2, t.set_param k v = Except.ok t2 ∧ t2.get_param k = some v ∧
      ∀ k2, k2 ≠ k → t2.get_param k2 = t.get_param k2 := by
  have hmem : k ∈ t.fields.map Prod.fst := by
    simpa [Transformer.param_names] using hk
  refine ⟨⟨t.func, t.fields.map (updEntry k v)⟩, ?_, ?_, ?_⟩
  · unfold Transformer.set_param
    rw [if_pos hk]
  · exact lookup_update_self hmem
  · intro k2 hk2
    exact lookup_update_ne hk2

lemma shape_elim {f : PyFunc V} (h : supportedShape f = true) :
    ∃ p0 rest, f.params = p0 :: rest ∧ p0.default? = none ∧
      (∀ p ∈ rest, p.default?.isSome = true) ∧
      p0.name ∉ rest.map Param.name ∧
      distinctNames (rest.map Param.name) = true := by
  unfold supportedShape at h
  cases hp : f.params with
  | nil => rw [hp] at h; simp at h
  | cons p0 rest =>
      rw [hp] at h
      simp only [List.map_cons, Bool.and_eq_true] at h
      obtain ⟨hdist, h0, hall⟩ := h
      obtain ⟨hnot, hdist'⟩ := distinctNames_cons hdist
      exact ⟨p0, rest, rfl, Option.isNone_iff_eq_none.mp h0,
        by simpa [List.all_eq_true] using hall, hnot, hdist'⟩

/-! ### Concrete artifacts of the worked example -/

/-- The class the factory builds for `scale`. -/
def scaleClass : GeneratedClass Val :=
  { className := "FunctionTransformer_scale",
    doc := "Scale array by given factor.",
    kwargs := ["factor"],
    defaults := [Val.num 1],
    func := scale }

/-- A freshly constructed `scale` transformer, parameters at their
defaults (`new_transformer = new_class()`). -/
def freshScale : Transformer Val :=
  { func := scale, fields := [("factor", Val.num 1)] }

/-! ### The claims -/

/-- C1 (amended: at least one keyword-defaulted parameter): for every
function with exactly one required positional parameter and N ≥ 1
keyword-defaulted parameters, the factory produces an instance exposing
exactly those N parameters — same names, same default values, each
independently gettable, and each independently settable without touching
the others; the parameter list is the function's keyword list itself,
with no aggregate dictionary entry. -/
theorem C1_exposes_kwargs (f : PyFunc V)
    (h : supportedShape f = true) (hN : sigKwargsDefaults f ≠ []) :
    ∃ g t, makeTransformerClass f = Except.ok g ∧ g.new [] = Except.ok t ∧
      t.get_params = sigKwargsDefaults f ∧
      t.param_names = (sigKwargsDefaults f).map Prod.fst ∧
      (∀ kv ∈ sigKwargsDefaults f, t.get_param kv.1 = some kv.2) ∧
      (∀ k v, t.param_names.contains k = true →
        ∃ t2, t.set_param k v = Except.ok t2 ∧
          t2.get_param k = some v ∧
          ∀ k2, k2 ≠ k → t2.get_param k2 = t.get_param k2) := by
  obtain ⟨p0, rest, hp, h0, hrest, hnot, hdist⟩ := shape_elim h
  have hkd : sigKwargsDefaults f = kdList rest := sigKD_of_shape hp h0
  refine ⟨_, _, make_ok_of_ne hN, new_empty_ok _, ?_, ?_, ?_, ?_⟩
  · exact List.zip_unzip _
  · show (List.zip _ _).map Prod.fst = _
    rw [List.zip_unzip]
  · intro kv hkv
    show (List.zip _ _).lookup kv.1 = some kv.2
    rw [List.zip_unzip]
    apply lookup_self_of_distinct _ hkv
    rw [hkd, kdList_keys hrest]
    exact hdist
  · intro k v hk
    exact set_param_spec _ k v hk

/-- C1 counterexample: at a function with one required positional parameter
and zero keyword-defaulted parameters, the factory raises a `ValueError` at
`kwargs, defaults = zip(*kwargs_defaults)` instead of producing an instance
with an empty parameter set. -/
theorem C1_counterexample_no_kwargs :
    makeTransformerClass noKwargsFunc =
      Except.error "ValueError: not enough values to unpack (expected 2, got 0)" :=
  rfl

/-- C1 witness: the amended statement applied to `scale`. -/
theorem C1_exposes_kwargs_witness :
    supportedShape scale = true ∧ sigKwargsDefaults scale ≠ [] ∧
    (∃ g t, makeTransformerClass scale = Except.ok g ∧
      g.new [] = Except.ok t ∧
      t.get_params = sigKwargsDefaults scale ∧
      t.param_names = (sigKwargsDefaults scale).map Prod.fst ∧
      (∀ kv ∈ sigKwargsDefaults scale, t.get_param kv.1 = some kv.2) ∧
      (∀ k v, t.param_names.contains k = true →
        ∃ t2, t.set_param k v = Except.ok t2 ∧
          t2.get_param k = some v ∧
          ∀ k2, k2 ≠ k → t2.get_param k2 = t.get_param k2)) :=
  ⟨by decide, by decide, C1_exposes_kwargs scale (by decide) (by decide)⟩

/-- C2: on a freshly constructed transformer (parameters at their defaults),
`transform` returns exactly what calling the wrapped function directly on the
input with its default keyword arguments returns. -/
theorem C2_default_transform (f : PyFunc V) (g : GeneratedClass V)
    (t : Transformer V) (h : supportedShape f = true)
    (hg : makeTransformerClass f = Except.ok g)
    (ht : g.new [] = Except.ok t) (x : V) :
    t.transform x = f.call x [] := by
  obtain ⟨hfunc, hfields⟩ := fresh_state hg ht
  obtain ⟨p0, rest, hp, h0, hrest, hnot, hdist⟩ := shape_elim h
  have hkd : sigKwargsDefaults f = kdList rest := sigKD_of_shape hp h0
  have hkeys : ∀ kv ∈ kdList rest, kv.1 ∈ rest.map Param.name :=
    fun kv hkv => kdList_key_mem hkv
  have e1 := transform_eval hp hrest hnot hkeys x
  have e2 : f.call x [] =
      Except.ok (f.impl ((p0.name, x) :: bindParams rest [] x)) :=
    transform_eval hp hrest hnot
      (fun kv hkv => absurd hkv (List.not_mem_nil kv)) x
  unfold Transformer.transform
  rw [hfunc, hfields, hkd, e1, e2, bindParams_kdList x hdist hrest]

/-- C2 witness: the fresh `scale` transformer maps `[[1,2],[3,4]]` to the
same value as `scale` called directly with its defaults. -/
theorem C2_default_transform_witness :
    supportedShape scale = true ∧
    makeTransformerClass scale = Except.ok scaleClass ∧
    scaleClass.new [] = Except.ok freshScale ∧
    freshScale.transform Xmat = scale.call Xmat [] ∧
    scale.call Xmat [] = Except.ok Xmat :=
  ⟨by decide, rfl, rfl,
    C2_default_transform scale scaleClass freshScale (by decide) rfl rfl Xmat,
    rfl⟩

/-- C3: on any transformer for `f` (any currently stored values), setting
parameter `k` to `v` succeeds and a subsequent `transform` returns exactly
what calling `f` directly with keyword argument `k = v` — all other keyword
arguments at their currently stored values — returns. -/
theorem C3_set_then_transform (f : PyFunc V) (t : Transformer V)
    (h : supportedShape f = true) (hfunc : t.func = f)
    (hkeys : t.fields.map Prod.fst = (sigKwargsDefaults f).map Prod.fst)
    (k : String) (v : V) (hk : t.param_names.contains k = true) (x : V) :
    ∃ t2, t.set_param k v = Except.ok t2 ∧
      t2.transform x = f.call x ((k, v) :: t.fields) := by
  obtain ⟨p0, rest, hp, h0, hrest, hnot, hdist⟩ := shape_elim h
  have hkd : sigKwargsDefaults f = kdList rest := sigKD_of_shape hp h0
  have hkeynames : t.fields.map Prod.fst = rest.map Param.name := by
    rw [hkeys, hkd, kdList_keys hrest]
  have hmem : k ∈ t.fields.map Prod.fst := by
    simpa [Transformer.param_names] using hk
  refine ⟨⟨t.func, t.fields.map (updEntry k v)⟩, ?_, ?_⟩
  · unfold Transformer.set_param
    rw [if_pos hk]
  · have hkeys2 : ∀ kv ∈ t.fields.map (updEntry k v),
        kv.1 ∈ rest.map Param.name := by
      apply keys_sub
      rw [updEntry_keys, hkeynames]
    have hkeys3 : ∀ kv ∈ (k, v) :: t.fields, kv.1 ∈ rest.map Param.name := by
      intro kv hkv
      rcases List.mem_cons.mp hkv with rfl | hkv2
      · exact hkeynames ▸ hmem
      · exact keys_sub hkeynames kv hkv2
    have e1 := transform_eval hp hrest hnot hkeys2 x
    have e2 := transform_eval hp hrest hnot hkeys3 x
    unfold Transformer.transform
    show t.func.call x (t.fields.map (updEntry k v)) =
      f.call x ((k, v) :: t.fields)
    rw [hfunc, e1, e2, bindParams_update x hmem]

/-- C3 witness: the spec scenario — the default `scale` transform of
`[[1,2],[3,4]]` returns `[[1,2],[3,4]]`; after setting `factor = 2` the
transform of the same input returns `[[2,4],[6,8]]`, which equals calling
`scale` directly with `factor = 2`. -/
theorem C3_set_then_transform_witness :
    freshScale.transform Xmat = Except.ok Xmat ∧
    supportedShape scale = true ∧
    freshScale.param_names.contains "factor" = true ∧
    (∃ t2, freshScale.set_param "factor" (Val.num 2) = Except.ok t2 ∧
      t2.transform Xmat =
        scale.call Xmat (("factor", Val.num 2) :: freshScale.fields)) ∧
    scale.call Xmat (("factor", Val.num 2) :: freshScale.fields) =
      Except.ok (Val.arr [[2, 4], [6, 8]]) :=
  ⟨rfl, by decide, by decide,
    C3_set_then_transform scale freshScale (by decide) rfl (by decide)
      "factor" (Val.num 2) (by decide) Xmat,
    rfl⟩

/-- C4: `fit` returns the instance itself and leaves the whole state —
stored function and every stored parameter value — unchanged. -/
theorem C4_fit_noop (t : Transformer V) (x : V) :
    (t.fit x).1 = t ∧ (t.fit x).2 = t :=
  ⟨rfl, rfl⟩

/-- C5: calling the factory with no function argument produces an identity
transformer — `transform` returns its input.  (The packaged
`function_transformer` is modelled from the spec; its source is not in the
repository.) -/
theorem C5_identity_default (V : Type) [Inhabited V] (x : V) :
    (function_transformer_default V).transform x = Except.ok x :=
  rfl

/-- C6: at a function with one required positional parameter and no
keyword-defaulted parameters, the notebook factory raises
`ValueError` from `kwargs, defaults = zip(*kwargs_defaults)` instead of
producing the valid empty-parameter transformer the spec's invariant
requires. -/
theorem C6_no_kwargs_value_error :
    makeTransformerClass noKwargsFunc =
      Except.error "ValueError: not enough values to unpack (expected 2, got 0)" :=
  rfl

/-- C7 counterexample: a function with more than one required positional
parameter is accepted by the factory with no error at the factory call — the
claimed explicit signature-shape error is never raised at that point. -/
theorem C7_counterexample_accepts_bad_shape :
    (makeTransformerClass twoPosFunc).isOk = true :=
  rfl

/-- C7 (amended): an unknown keyword parameter name — at construction or at
a later parameter update — raises an explicit error; but a function with
more than one required positional parameter is accepted by the factory
without validation, and that misuse only surfaces later, as a `TypeError`
when `transform` first calls the function (shown on `twoPosFunc`). -/
theorem C7_usage_errors :
    (∀ (c : GeneratedClass V) (k : String) (v : V) (ov : List (String × V)),
      c.kwargs.contains k = false →
      c.new ((k, v) :: ov) =
        Except.error "TypeError: unexpected keyword argument") ∧
    (∀ (t : Transformer V) (k : String) (v : V),
      t.param_names.contains k = false →
      t.set_param k v = Except.error "ValueError: invalid parameter") ∧
    (makeTransformerClass twoPosFunc).isOk = true ∧
    (do
      let g ← makeTransformerClass twoPosFunc
      let t ← g.new []
      t.transform Xmat) =
        Except.error "TypeError: missing a required argument" := by
  refine ⟨?_, ?_, rfl, rfl⟩
  · intro c k v ov hk
    have hcond : (((k, v) :: ov).all (fun kv => c.kwargs.contains kv.1)) =
        false := by
      have hstep : ((k, v) :: ov).all (fun kv => c.kwargs.contains kv.1) =
          (c.kwargs.contains k && ov.all (fun kv => c.kwargs.contains kv.1)) :=
        rfl
      rw [hstep, hk, Bool.false_and]
    unfold GeneratedClass.new
    rw [hcond]
    simp
  · intro t k v hk
    unfold Transformer.set_param
    rw [hk]
    simp

/-- C7 witness: the amended statement applied at concrete inputs — an
unknown keyword `oops` at construction and at update on the `scale`
transformer. -/
theorem C7_usage_errors_witness :
    scaleClass.kwargs.contains "oops" = false ∧
    scaleClass.new [("oops", Val.num 2)] =
      Except.error "TypeError: unexpected keyword argument" ∧
    freshScale.param_names.contains "oops" = false ∧
    freshScale.set_param "oops" (Val.num 2) =
      Except.error "ValueError: invalid parameter" :=
  ⟨by decide,
    C7_usage_errors.1 scaleClass "oops" (Val.num 2) [] (by decide),
    by decide,
    C7_usage_errors.2.1 freshScale "oops" (Val.num 2) (by decide)⟩

/-- C8: the factory has no effect beyond the returned class and instance:
the generated class and every instance built from it hold the wrapped
function itself, by reference and unchanged. -/
theorem C8_no_mutation (f : PyFunc V) (g : GeneratedClass V)
    (hg : makeTransformerClass f = Except.ok g) :
    g.func = f ∧
    ∀ (ov : List (String × V)) (t : Transformer V),
      g.new ov = Except.ok t → t.func = f := by
  obtain ⟨_, hgr⟩ := make_ok_elim hg
  subst hgr
  refine ⟨rfl, ?_⟩
  intro ov t ht
  unfold GeneratedClass.new at ht
  by_cases hov : ov.all (fun kv =>
      ((sigKwargsDefaults f).unzip.1).contains kv.1) = true
  · rw [if_pos hov] at ht
    cases ht
    rfl
  · rw [if_neg hov] at ht
    cases ht

/-- C8 witness: the class and instance generated for `scale` hold `scale`
itself. -/
theorem C8_no_mutation_witness :
    makeTransformerClass scale = Except.ok scaleClass ∧
    scaleClass.func = scale ∧
    scaleClass.new [] = Except.ok freshScale ∧
    freshScale.func = scale :=
  ⟨rfl, (C8_no_mutation scale scaleClass rfl).1, rfl,
    (C8_no_mutation scale scaleClass rfl).2 [] freshScale rfl⟩

/-- C9: `transform` leaves the instance state — the stored function and
every stored parameter value — unchanged. -/
theorem C9_transform_frame (t : Transformer V) (x : V) :
    (t.transformStep x).2 = t :=
  rfl

/-- C10: the generated class carries the wrapped function's identity: its
name is `FunctionTransformer_` followed by the function's name, and its
docstring equals the function's docstring. -/
theorem C10_class_identity (f : PyFunc V) (g : GeneratedClass V)
    (hg : makeTransformerClass f = Except.ok g) :
    g.className = "FunctionTransformer_" ++ f.name ∧ g.doc = f.doc := by
  obtain ⟨_, hgr⟩ := make_ok_elim hg
  subst hgr
  exact ⟨rfl, rfl⟩

/-- C10 witness: the class generated for `scale` is named
`FunctionTransformer_scale` and carries the `scale` docstring. -/
theorem C10_class_identity_witness :
    makeTransformerClass scale = Except.ok scaleClass ∧
    scaleClass.className = "FunctionTransformer_scale" ∧
    scaleClass.doc = "Scale array by given factor." :=
  ⟨rfl, (C10_class_identity scale scaleClass rfl).1,
    (C10_class_identity scale scaleClass rfl).2⟩

end MarioFactory
